import Mathlib

/-!
Verification of the ai-coding-assistant session/connection manager.

The definitions below are a shallow embedding of the JavaScript source:
  - frontend/webview.js   (connection backoff, message classification,
                           turn tracking, token metrics, learning progress)
  - src/api/websocket client (WebSocketClient.sendMessage)
  - src/utils/state.js    (ExtensionState two-tier store)
Machine numbers are modelled as Int / Rat (all arithmetic the claims touch
is exact in IEEE doubles for the ranges involved).
-/

namespace AICA

/-! ## Connection backoff (webview.js lines 33-36, 126-143) -/

def maxReconnectAttempts : Nat := 10

def baseReconnectDelay : ℚ := 1000

/-- The delay computed by `reconnectWithBackoff` when the incremented
`reconnectAttempts` counter equals `n` (webview.js line 133):
`Math.min(30000, baseReconnectDelay * Math.pow(1.5, reconnectAttempts - 1))`. -/
def reconnectDelay (n : Nat) : ℚ :=
  min 30000 (baseReconnectDelay * (3 / 2) ^ (n - 1))

inductive ConnStatus
  | online
  | connecting
  | offline
deriving DecidableEq

/-- Mutable connection-related state of the webview: the retry counter,
the displayed status, how many times the terminal "max attempts reached"
error has been shown, and how many reconnect timers have been scheduled. -/
structure ConnState where
  reconnectAttempts : Nat
  status : ConnStatus
  maxNotices : Nat
  scheduledReconnects : Nat
deriving DecidableEq

/-- webview.js lines 126-143. -/
def reconnectWithBackoff (s : ConnState) : ConnState :=
  if maxReconnectAttempts ≤ s.reconnectAttempts then
    { s with maxNotices := s.maxNotices + 1 }
  else
    { s with reconnectAttempts := s.reconnectAttempts + 1,
             status := ConnStatus.connecting,
             scheduledReconnects := s.scheduledReconnects + 1 }

/-- webview.js lines 111-115: `ws.onclose` sets the status to offline and
calls `reconnectWithBackoff`. -/
def wsOnClose (s : ConnState) : ConnState :=
  reconnectWithBackoff { s with status := ConnStatus.offline }

/-- webview.js lines 45-52: `ws.onopen` resets `reconnectAttempts` to 0. -/
def wsOnOpen (s : ConnState) : ConnState :=
  { s with status := ConnStatus.online, reconnectAttempts := 0 }

/-- webview.js lines 243-250: the "Retry Connection" button clears the error
and calls `initWebSocket`, which only changes the displayed status; it does
not touch `reconnectAttempts`. -/
def retryConnectionClick (s : ConnState) : ConnState :=
  { s with status := ConnStatus.connecting }

def initialConnState : ConnState :=
  { reconnectAttempts := 0
    status := ConnStatus.connecting
    maxNotices := 0
    scheduledReconnects := 0 }

/-- A run of `k` consecutive close events with no successful open. -/
def iterateClose : Nat → ConnState → ConnState
  | 0, s => s
  | k + 1, s => iterateClose k (wsOnClose s)

theorem iterateClose_succ (k : Nat) (s : ConnState) :
    iterateClose (k + 1) s = iterateClose k (wsOnClose s) := rfl

/-- Once the attempt cap is reached, further close events only add notices:
they schedule nothing and leave the counter at (or above) the cap. -/
theorem iterateClose_exhausted (k : Nat) (s : ConnState)
    (h : maxReconnectAttempts ≤ s.reconnectAttempts) :
    (iterateClose k s).scheduledReconnects = s.scheduledReconnects ∧
    maxReconnectAttempts ≤ (iterateClose k s).reconnectAttempts := by
  induction k generalizing s with
  | zero => exact ⟨rfl, h⟩
  | succ n ih =>
    have hsched : (wsOnClose s).scheduledReconnects = s.scheduledReconnects := by
      simp [wsOnClose, reconnectWithBackoff, h]
    have hattempts : (wsOnClose s).reconnectAttempts = s.reconnectAttempts := by
      simp [wsOnClose, reconnectWithBackoff, h]
    obtain ⟨ha, hb⟩ := ih (wsOnClose s) (by rw [hattempts]; exact h)
    rw [iterateClose_succ]
    exact ⟨by rw [ha, hsched], hb⟩

/-- C1: for every attempt number n in [1, maxAttempts], the scheduled delay
equals min(30000, 1000 * 1.5^(n-1)); the delay sequence is monotonically
non-decreasing in n and never exceeds the 30000 ms cap. -/
theorem reconnectDelay_spec (n : Nat) (h1 : 1 ≤ n) (h2 : n ≤ maxReconnectAttempts) :
    reconnectDelay n = min 30000 (1000 * (3 / 2 : ℚ) ^ (n - 1)) ∧
    (∀ m : Nat, n ≤ m → m ≤ maxReconnectAttempts → reconnectDelay n ≤ reconnectDelay m) ∧
    reconnectDelay n ≤ 30000 := by
  refine ⟨rfl, ?_, min_le_left _ _⟩
  intro m hnm _
  unfold reconnectDelay baseReconnectDelay
  refine min_le_min le_rfl ?_
  have h32 : (1 : ℚ) ≤ 3 / 2 := by norm_num
  have hpow : (3 / 2 : ℚ) ^ (n - 1) ≤ (3 / 2 : ℚ) ^ (m - 1) :=
    pow_le_pow_right₀ h32 (Nat.sub_le_sub_right hnm 1)
  exact mul_le_mul_of_nonneg_left hpow (by norm_num)

/-- Witness for `reconnectDelay_spec` at n = 3. -/
theorem reconnectDelay_spec_witness :
    (1 ≤ 3 ∧ 3 ≤ maxReconnectAttempts) ∧
    (reconnectDelay 3 = min 30000 (1000 * (3 / 2 : ℚ) ^ (3 - 1)) ∧
      (∀ m : Nat, 3 ≤ m → m ≤ maxReconnectAttempts → reconnectDelay 3 ≤ reconnectDelay m) ∧
      reconnectDelay 3 ≤ 30000) :=
  ⟨⟨by norm_num, by decide⟩, reconnectDelay_spec 3 (by norm_num) (by decide)⟩

/-- C4 counterexample: after exactly 10 consecutive close events from the
initial state, the terminal "max attempts reached" notice has NOT yet been
shown (the claim says exactly one), and a 10th reconnect was scheduled by
the 10th close (the claim says no further reconnects are scheduled). -/
theorem closeRun_ten_counterexample :
    ¬ (iterateClose 10 initialConnState).maxNotices = 1 ∧
    (iterateClose 10 initialConnState).maxNotices = 0 ∧
    (iterateClose 10 initialConnState).scheduledReconnects = 10 ∧
    (iterateClose 10 initialConnState).reconnectAttempts = 10 := by
  decide

/-- C4 amended: a run of 11 consecutive close events with no successful open
(the 10 closes that exhaust the counter plus the close of the last failed
attempt) produces exactly one terminal "max attempts reached" notice, after
which no further reconnects are ever scheduled; the attempt counter is reset
to 0 only by a successful open, while the manual retry click itself leaves
the counter unchanged (a retry resets it only via the open event of the
connection it starts). -/
theorem closeRun_amended :
    (iterateClose 11 initialConnState).maxNotices = 1 ∧
    (iterateClose 11 initialConnState).scheduledReconnects = 10 ∧
    (∀ k : Nat,
      (iterateClose k (iterateClose 11 initialConnState)).scheduledReconnects = 10) ∧
    (∀ s : ConnState, (retryConnectionClick s).reconnectAttempts = s.reconnectAttempts) ∧
    (∀ s : ConnState, (wsOnOpen s).reconnectAttempts = 0) := by
  refine ⟨by decide, by decide, ?_, fun s => rfl, fun s => rfl⟩
  intro k
  have h : maxReconnectAttempts ≤ (iterateClose 11 initialConnState).reconnectAttempts := by
    decide
  have hsched := (iterateClose_exhausted k (iterateClose 11 initialConnState) h).1
  rw [hsched]
  decide

/-! ## JavaScript truthiness helpers -/

/-- Truthiness of an optional string field of a parsed JSON object:
absent and the empty string are falsy. -/
def strTruthy : Option String → Bool
  | none => false
  | some s => s != ""

/-- Truthiness of an optional numeric field: absent and 0 are falsy. -/
def numTruthy : Option Int → Bool
  | none => false
  | some n => n != 0

/-! ## Token estimation (webview.js lines 145-172) -/

/-- The JavaScript regex class \s (ECMAScript WhiteSpace and LineTerminator
code points); also the set removed by String.prototype.trim. -/
def isJsWhitespace (c : Char) : Bool :=
  c.toNat = 9 || c.toNat = 10 || c.toNat = 11 || c.toNat = 12 || c.toNat = 13 ||
  c.toNat = 32 || c.toNat = 160 || c.toNat = 5760 ||
  (8192 ≤ c.toNat && c.toNat ≤ 8202) ||
  c.toNat = 8232 || c.toNat = 8233 || c.toNat = 8239 || c.toNat = 8287 ||
  c.toNat = 12288 || c.toNat = 65279

/-- JavaScript String.prototype.trim: strip leading and trailing
WhiteSpace/LineTerminator code points. -/
def jsTrim (s : String) : String :=
  String.mk (((s.data.dropWhile isJsWhitespace).reverse.dropWhile isJsWhitespace).reverse)

/-- The regex class [a-zA-Z0-9] of `estimateTokenCount`. -/
def isAlnumJS (c : Char) : Bool :=
  (Char.ofNat 97 ≤ c && c ≤ Char.ofNat 122) ||
  (Char.ofNat 65 ≤ c && c ≤ Char.ofNat 90) ||
  (Char.ofNat 48 ≤ c && c ≤ Char.ofNat 57)

/-- The punctuation class of `estimateTokenCount`: period, comma, question
mark, exclamation mark, colon, semicolon, apostrophe, double quote, round,
square and curly brackets. -/
def isPunctJS (c : Char) : Bool :=
  c = Char.ofNat 46 || c = Char.ofNat 44 || c = Char.ofNat 63 ||
  c = Char.ofNat 33 || c = Char.ofNat 58 || c = Char.ofNat 59 ||
  c = Char.ofNat 39 || c = Char.ofNat 34 || c = Char.ofNat 40 ||
  c = Char.ofNat 41 || c = Char.ofNat 91 || c = Char.ofNat 93 ||
  c = Char.ofNat 123 || c = Char.ofNat 125

/-- The symbol class of `estimateTokenCount`: the complement of the other
three classes. -/
def isSymbolJS (c : Char) : Bool :=
  !(isAlnumJS c || isJsWhitespace c || isPunctJS c)

def countClass (f : Char → Bool) (text : String) : Nat :=
  (text.toList.filter f).length

/-- webview.js lines 161-165: the weighted character count. The weights
0.25, 0.5 and 1.0 are exactly representable IEEE doubles, so Rat models
the JavaScript arithmetic exactly. -/
def weightedCount (text : String) : ℚ :=
  (countClass isAlnumJS text : ℚ) * (1 / 4) +
  (countClass isJsWhitespace text : ℚ) * (1 / 4) +
  (countClass isPunctJS text : ℚ) * (1 / 2) +
  (countClass isSymbolJS text : ℚ) * 1

/-- webview.js lines 146-172: `estimateTokenCount`. An empty (falsy) text
returns 0 at line 147; otherwise the result is
`Math.max(3, Math.ceil(weightedCount) + 2)`. -/
def estimateTokenCount (text : String) : Int :=
  if text = "" then 0
  else max 3 (⌈weightedCount text⌉ + 2)

/-- C5 counterexample: the estimator applied to the empty response text
returns 0, not at least 3 (the early return at webview.js line 147 precedes
the floor of 3 at line 171). -/
theorem estimateTokenCount_empty_counterexample :
    estimateTokenCount "" = 0 ∧ ¬ (3 ≤ estimateTokenCount "") := by
  constructor
  · rfl
  · decide

/-! ## Webview mutable session state (webview.js lines 23-28) -/

structure WebviewState where
  totalTokens : Int
  isGitLearningMode : Bool
  startTime : Int
  isWaitingForResponse : Bool
  modelNameText : String
  responseTimeMs : Option Int
deriving DecidableEq

def initialWebviewState : WebviewState :=
  { totalTokens := 0
    isGitLearningMode := false
    startTime := 0
    isWaitingForResponse := false
    modelNameText := "Mistral-7B-Instruct"
    responseTimeMs := none }

/-- The argument object passed to `handleAIResponse`: a response text, a
token count (already defaulted by the caller) and an optional model name. -/
structure AIRespData where
  prompt : String
  tokens : Int
  model : Option String
deriving DecidableEq

/-- webview.js lines 431-451: `updatePerformanceMetrics`. Adds `data.tokens`
to `totalTokens` when truthy, computes the latency once when `startTime` is
positive, and updates the displayed model name when provided. -/
def updatePerformanceMetrics (s : WebviewState) (d : AIRespData) (now : Int) : WebviewState :=
  let s1 := if d.tokens ≠ 0 then { s with totalTokens := s.totalTokens + d.tokens } else s
  let s2 := if 0 < s1.startTime then
      { s1 with responseTimeMs := some (now - s1.startTime), startTime := 0 }
    else s1
  if strTruthy d.model then { s2 with modelNameText := d.model.getD "" } else s2

/-- webview.js lines 410-429: `handleAIResponse`. Updates the model name,
appends the assistant message (which clears the waiting flag), then calls
`updatePerformanceMetrics` and clears the waiting flag again. -/
def handleAIResponse (s : WebviewState) (d : AIRespData) (now : Int) : WebviewState :=
  let s1 := if strTruthy d.model then { s with modelNameText := d.model.getD "" } else s
  let s2 := { s1 with isWaitingForResponse := false }
  updatePerformanceMetrics s2 d now

/-- webview.js lines 743-751: the `updateMetrics` message handler from the
extension ASSIGNS `totalTokens = message.tokens` (no accumulation). -/
def updateMetricsMsg (s : WebviewState) (tokens : Option Int) (model : Option String) :
    WebviewState :=
  let s1 := if numTruthy tokens then { s with totalTokens := tokens.getD 0 } else s
  if strTruthy model then { s1 with modelNameText := model.getD "" } else s1

/-- A sequence of completed turns, each delivered through `handleAIResponse`. -/
def runTurns (s : WebviewState) (ds : List AIRespData) : WebviewState :=
  ds.foldl (fun t d => handleAIResponse t d 0) s

/-! ## startProject and sendChatMessage (webview.js lines 502-597, 600-671) -/

/-- The JSON body of the POST /start request (webview.js lines 545-549). -/
structure StartRequest where
  goal : String
  project : String
  codebase_path : String
deriving DecidableEq

/-- webview.js lines 502-597: `startProject`, modelled up to the issuing of
the HTTP request (the response callbacks are asynchronous continuations).
Returns the new state, the error message shown (if any), and the request
issued (if any). The chat log, skeleton loader and button disabling are
presentation effects outside the session state. -/
def startProject (s : WebviewState) (goalInput projectInput pathInput : String) (now : Int) :
    WebviewState × Option String × Option StartRequest :=
  if s.isGitLearningMode then
    (s, some "Please disable GitHub Learning Mode to start a project", none)
  else if jsTrim goalInput = "" then
    (s, some "Please enter a coding goal", none)
  else if jsTrim projectInput = "" then
    (s, some "Please enter a project name", none)
  else if jsTrim pathInput = "" then
    (s, some "Please enter a codebase path", none)
  else
    ({ s with startTime := now, isWaitingForResponse := true },
     none,
     some { goal := jsTrim goalInput
            project := jsTrim projectInput
            codebase_path := jsTrim pathInput })

/-- The outbound chat frame (webview.js lines 623-626). -/
structure ChatFrame where
  message : String
  git_learning_mode : Bool
deriving DecidableEq

/-- webview.js lines 600-671: `sendChatMessage`, modelled up to its
synchronous effects. Returns the new state, the WebSocket frame sent (if
any), whether the HTTP fallback request was issued, and the error shown. -/
def sendChatMessage (s : WebviewState) (chatInput : String) (now : Int) (wsOpen : Bool) :
    WebviewState × Option ChatFrame × Bool × Option String :=
  let message := jsTrim chatInput
  if message = "" ∨ s.isWaitingForResponse = true then
    (s, none, false, none)
  else
    let s1 := { s with isWaitingForResponse := true, startTime := now }
    if wsOpen then
      (s1, some { message := message, git_learning_mode := s.isGitLearningMode }, false, none)
    else if s.isGitLearningMode then
      ({ s1 with isWaitingForResponse := false }, none, false,
        some "WebSocket connection lost. Trying to reconnect...")
    else
      (s1, none, true, some "WebSocket connection lost. Trying to reconnect...")

/-! ## Learning progress (webview.js lines 71-75, 260-307) -/

/-- A detailed progress stats object (webview.js lines 272-297). -/
structure ProgressObj where
  percentage : Option Int
  repos_analyzed : Option Int
  files_processed : Option Int
  lines_processed : Option Int
  current_repo : Option String
  status_message : Option String
deriving DecidableEq

/-- The `learning_progress` payload: an object, a number or a string
(webview.js lines 272-305). -/
inductive ProgressPayload
  | obj (o : ProgressObj)
  | num (n : Int)
  | str (s : String)
deriving DecidableEq

/-- Truthiness of an optional `learning_progress` field: objects are always
truthy, the number 0 and the empty string are falsy. -/
def progTruthy : Option ProgressPayload → Bool
  | none => false
  | some (ProgressPayload.obj _) => true
  | some (ProgressPayload.num n) => n != 0
  | some (ProgressPayload.str s) => s != ""

/-- The learning-progress display elements mutated by
`updateLearningProgress` (DOM elements assumed present). -/
structure LearningDisplay where
  progressBarWidth : Option Int
  statusText : String
  reposAnalyzed : Option Int
  filesProcessed : Option Int
  linesProcessed : Option Int
  currentRepo : Option String
deriving DecidableEq

def progressStatusLine (p : Int) : String :=
  "Learning in progress: " ++ toString p ++ "% complete"

/-- webview.js lines 260-307: `updateLearningProgress`. Returns immediately
unless in GitHub learning mode; an object payload overwrites exactly the
display fields whose keys it carries (`current_repo` and `status_message`
are additionally truthiness-checked by the source). -/
def updateLearningProgress (gitMode : Bool) (d : LearningDisplay) (p : ProgressPayload) :
    LearningDisplay :=
  if gitMode = false then d
  else
    match p with
    | ProgressPayload.obj o =>
        let d1 := match o.percentage with
          | some pc => { d with progressBarWidth := some pc,
                                statusText := progressStatusLine pc }
          | none => d
        let d2 := match o.repos_analyzed with
          | some r => { d1 with reposAnalyzed := some r }
          | none => d1
        let d3 := match o.files_processed with
          | some f => { d2 with filesProcessed := some f }
          | none => d2
        let d4 := match o.lines_processed with
          | some l => { d3 with linesProcessed := some l }
          | none => d3
        let d5 := match o.current_repo with
          | some r => if r != "" then { d4 with currentRepo := some r } else d4
          | none => d4
        match o.status_message with
        | some m => if m != "" then { d5 with statusText := m } else d5
        | none => d5
    | ProgressPayload.num n =>
        { d with progressBarWidth := some n, statusText := progressStatusLine n }
    | ProgressPayload.str s =>
        { d with statusText := s }

/-- webview.js lines 71-75: the `learning_progress` branch of `ws.onmessage`
calls `updateLearningProgress` only while in GitHub learning mode and is a
no-op otherwise. -/
def onLearningProgressFrame (gitMode : Bool) (d : LearningDisplay) (p : ProgressPayload) :
    LearningDisplay :=
  if gitMode then updateLearningProgress gitMode d p else d

/-! ## Inbound frame classification (webview.js lines 54-95) -/

/-- A structurally valid parsed inbound frame (fields of interest; absent
fields are `none`). -/
structure InFrame where
  prompt : Option String
  message : Option String
  learning_progress : Option ProgressPayload
  error : Option String
  tokens : Option Int
  model : Option String
deriving DecidableEq

/-- The canonical outcome of processing one parsed inbound frame. -/
inductive Envelope
  | assistantResponse (text : String) (tokens : Int) (model : String)
  | progressUpdate (p : ProgressPayload)
  | errorNotice (msg : String)
  | fallbackResponse (raw : String) (tokens : Int)
deriving DecidableEq

def Envelope.isErrorNotice : Envelope → Bool
  | Envelope.errorNotice _ => true
  | _ => false

def Envelope.isAssistantResponse : Envelope → Bool
  | Envelope.assistantResponse _ _ _ => true
  | _ => false

/-- webview.js line 62: `data.tokens || estimateTokenCount(text)`. -/
def respTokens (explicit : Option Int) (text : String) : Int :=
  if numTruthy explicit then explicit.getD 0 else estimateTokenCount text

/-- webview.js lines 54-95: the `ws.onmessage` dispatch on a frame that
parsed successfully, given also the raw frame text. The branch order of the
source is: `prompt`, then `message`, then `learning_progress`, then `error`,
then the plain-text fallback with 10 tokens. In the `prompt` and `message`
branches the source evaluates `data.model || currentModel`; `currentModel`
is bound nowhere in the script, so when `data.model` is falsy this read
throws a ReferenceError that the surrounding catch turns into the
plain-text fallback with an estimated token count (webview.js lines 86-94). -/
def classifyFrame (d : InFrame) (raw : String) : Envelope :=
  if strTruthy d.prompt then
    if strTruthy d.model then
      Envelope.assistantResponse (d.prompt.getD "")
        (respTokens d.tokens (d.prompt.getD "")) (d.model.getD "")
    else
      Envelope.fallbackResponse raw (estimateTokenCount raw)
  else if strTruthy d.message then
    if strTruthy d.model then
      Envelope.assistantResponse (d.message.getD "")
        (respTokens d.tokens (d.message.getD "")) (d.model.getD "")
    else
      Envelope.fallbackResponse raw (estimateTokenCount raw)
  else if progTruthy d.learning_progress then
    Envelope.progressUpdate (d.learning_progress.getD (ProgressPayload.num 0))
  else if strTruthy d.error then
    Envelope.errorNotice (d.error.getD "")
  else
    Envelope.fallbackResponse raw 10

/-! ## WebSocketClient.sendMessage (src/api/websocket.js lines 122-134) -/

inductive ReadyState
  | CONNECTING
  | OPEN
  | CLOSING
  | CLOSED
deriving DecidableEq

/-- The fields of `WebSocketClient` that `sendMessage` reads: whether a
socket object exists, the `isConnected` flag, and the socket ready state. -/
structure WSClientState where
  hasWs : Bool
  isConnected : Bool
  readyState : ReadyState
deriving DecidableEq

/-- `WebSocketClient.sendMessage`: guard clause, then
`this.ws.send(JSON.stringify(message))` in a try/catch that returns false.
`sendFails` models an exception thrown by serialization or by the send
call. The result is the returned flag paired with whether the message was
written to the socket. The method never queues. -/
def sendMessage (c : WSClientState) (sendFails : Bool) : Bool × Bool :=
  if c.isConnected = false ∨ c.hasWs = false ∨ c.readyState ≠ ReadyState.OPEN then
    (false, false)
  else if sendFails then
    (false, false)
  else
    (true, true)

/-! ## ExtensionState two-tier store (src/utils/state.js) -/

/-- A JavaScript value stored in a state tier. -/
inductive JSValue
  | bool (b : Bool)
  | num (n : Int)
  | str (s : String)
  | null
deriving DecidableEq

/-- The property keys of Object.prototype: the JS `in` operator matches
these on any plain object whose prototype has not been detached, in
addition to the object own keys. -/
def objectPrototypeKeys : List String :=
  ["constructor", "hasOwnProperty", "isPrototypeOf", "propertyIsEnumerable",
   "toLocaleString", "toString", "valueOf", "__defineGetter__",
   "__defineSetter__", "__lookupGetter__", "__lookupSetter__", "__proto__"]

/-- A plain JavaScript object (a state tier): its own enumerable properties
in insertion order, plus whether its prototype is still Object.prototype
(assigning null through the inherited __proto__ accessor detaches it). -/
structure JSObject where
  entries : List (String × JSValue)
  protoIsObjectPrototype : Bool
deriving DecidableEq

/-- Own-key membership (Object.prototype.hasOwnProperty semantics). -/
def hasOwn (o : JSObject) (k : String) : Bool :=
  o.entries.any (fun p => p.1 == k)

/-- The JavaScript test `k in o` used by the guards at state.js lines 54
and 66: own keys, plus the inherited Object.prototype keys while the
prototype is attached. -/
def hasKeyJS (o : JSObject) (k : String) : Bool :=
  hasOwn o k || (o.protoIsObjectPrototype && objectPrototypeKeys.contains k)

def lookupKey (t : List (String × JSValue)) (k : String) : Option JSValue :=
  (t.find? (fun p => p.1 == k)).map Prod.snd

/-- JS assignment `o[k] = v` on a plain object: an existing own key is
overwritten in place; otherwise, if the prototype is attached and k is
__proto__, the inherited accessor runs instead (null detaches the
prototype; the primitive values of `JSValue` are ignored by the setter);
otherwise a new own key is appended (writable inherited data properties
such as toString are simply shadowed). -/
def assign (o : JSObject) (k : String) (v : JSValue) : JSObject :=
  if hasOwn o k then
    { o with entries := o.entries.map (fun p => if p.1 == k then (p.1, v) else p) }
  else if k == "__proto__" && o.protoIsObjectPrototype then
    match v with
    | JSValue.null => { o with protoIsObjectPrototype := false }
    | _ => o
  else
    { o with entries := o.entries ++ [(k, v)] }

/-- state.js constructor plus the listener list (listeners modelled by
their count; each notification delivers the same merged snapshot). -/
structure ExtensionState where
  persistent : JSObject
  session : JSObject
  listeners : Nat
deriving DecidableEq

def initialExtensionState : ExtensionState :=
  { persistent := { entries := [("isGitLearningMode", JSValue.bool false)]
                    protoIsObjectPrototype := true }
    session := { entries := [("totalTokens", JSValue.num 0),
                             ("currentModel", JSValue.str "Mistral-7B-Instruct"),
                             ("projectInfo", JSValue.null)]
                 protoIsObjectPrototype := true }
    listeners := 0 }

/-- state.js lines 76-81: `getState` spreads persistent then session (own
enumerable keys only), so session values win on shared keys and persistent
keys come first. -/
def getState (s : ExtensionState) : List (String × JSValue) :=
  (s.persistent.entries.map (fun kv =>
    match lookupKey s.session.entries kv.1 with
    | some v => (kv.1, v)
    | none => kv)) ++
  s.session.entries.filter (fun kv => !(s.persistent.entries.any (fun p => p.1 == kv.1)))

/-- state.js lines 97-106: `_notifyListeners` synchronously calls every
registered listener with the merged snapshot (listener exceptions are
caught, so every listener is always called). -/
def notifySnapshots (s : ExtensionState) : List (List (String × JSValue)) :=
  List.replicate s.listeners (getState s)

/-- state.js lines 53-58: `updatePersistent`. Returns the new state and the
list of listener notifications performed. -/
def updatePersistent (s : ExtensionState) (k : String) (v : JSValue) :
    ExtensionState × List (List (String × JSValue)) :=
  if hasKeyJS s.persistent k then
    let s2 := { s with persistent := assign s.persistent k v }
    (s2, notifySnapshots s2)
  else
    (s, [])

/-- state.js lines 65-70: `updateSession`. -/
def updateSession (s : ExtensionState) (k : String) (v : JSValue) :
    ExtensionState × List (List (String × JSValue)) :=
  if hasKeyJS s.session k then
    let s2 := { s with session := assign s.session k v }
    (s2, notifySnapshots s2)
  else
    (s, [])

/-- The initial store with one registered listener. -/
def storeWithListener : ExtensionState :=
  { initialExtensionState with listeners := 1 }

/-! ## Evaluation lemmas for the estimator (Rat ceil as Nat division) -/

theorem ceil_natCast_div_four (q : ℕ) :
    ⌈(q : ℚ) / 4⌉ = (((q + 3) / 4 : ℕ) : ℤ) := by
  set k : ℕ := (q + 3) / 4 with hk
  have hza : k * 4 < q + 4 := by omega
  have hzb : q ≤ k * 4 := by omega
  rw [Int.ceil_eq_iff]
  have h4 : (0 : ℚ) < 4 := by norm_num
  constructor
  · rw [lt_div_iff₀ h4]
    have hz2 : ((k : ℚ)) * 4 < (q : ℚ) + 4 := by exact_mod_cast hza
    push_cast
    linarith
  · rw [div_le_iff₀ h4]
    have hz2 : (q : ℚ) ≤ ((k : ℚ)) * 4 := by exact_mod_cast hzb
    push_cast
    linarith

theorem weightedCount_eq_quarters (text : String) :
    weightedCount text = ((countClass isAlnumJS text + countClass isJsWhitespace text +
      2 * countClass isPunctJS text + 4 * countClass isSymbolJS text : ℕ) : ℚ) / 4 := by
  unfold weightedCount
  push_cast
  ring

theorem estimateTokenCount_formula (text : String) :
    estimateTokenCount text =
      if text = "" then 0
      else max 3 ((((countClass isAlnumJS text + countClass isJsWhitespace text +
          2 * countClass isPunctJS text + 4 * countClass isSymbolJS text + 3) / 4 : ℕ) : ℤ) + 2) := by
  unfold estimateTokenCount
  split
  · rfl
  · rw [weightedCount_eq_quarters, ceil_natCast_div_four]

/-- `handleAIResponse` adds the token count to `totalTokens` exactly once
(and skips a falsy count). -/
theorem handleAIResponse_totalTokens (s : WebviewState) (d : AIRespData) (now : Int) :
    (handleAIResponse s d now).totalTokens =
      s.totalTokens + (if d.tokens = 0 then 0 else d.tokens) := by
  unfold handleAIResponse updatePerformanceMetrics
  by_cases h2 : d.tokens = 0 <;>
    cases hm : strTruthy d.model <;>
      simp [h2, hm] <;> split_ifs <;> simp

/-- C5 amended: for every NONEMPTY response text the heuristic estimator
returns at least 3 tokens, computed as the ceiling of the weighted class
count plus a constant overhead of 2 (for the empty text it returns 0, see
the counterexample); a completed turn adds its token count to `totalTokens`
exactly once when the count is truthy, and adds nothing when it is 0. -/
theorem estimateTokenCount_amended (text : String) (h : text ≠ "") (s : WebviewState)
    (d : AIRespData) (now : Int) :
    3 ≤ estimateTokenCount text ∧
    estimateTokenCount text = max 3 (⌈weightedCount text⌉ + 2) ∧
    (d.tokens ≠ 0 → (handleAIResponse s d now).totalTokens = s.totalTokens + d.tokens) ∧
    (d.tokens = 0 → (handleAIResponse s d now).totalTokens = s.totalTokens) := by
  refine ⟨?_, ?_, ?_, ?_⟩
  · unfold estimateTokenCount
    rw [if_neg h]
    exact le_max_left _ _
  · unfold estimateTokenCount
    rw [if_neg h]
  · intro ht
    rw [handleAIResponse_totalTokens, if_neg ht]
  · intro ht
    rw [handleAIResponse_totalTokens, if_pos ht]
    exact add_zero _

/-- Witness for `estimateTokenCount_amended` at the text "hi" and a turn
carrying 3 tokens. -/
theorem estimateTokenCount_amended_witness :
    ("hi" ≠ "") ∧
    (3 ≤ estimateTokenCount "hi" ∧
      estimateTokenCount "hi" = max 3 (⌈weightedCount "hi"⌉ + 2) ∧
      (((3 : Int) ≠ 0) →
        (handleAIResponse initialWebviewState ⟨"hi", 3, none⟩ 0).totalTokens =
          initialWebviewState.totalTokens + 3) ∧
      (((3 : Int) = 0) →
        (handleAIResponse initialWebviewState ⟨"hi", 3, none⟩ 0).totalTokens =
          initialWebviewState.totalTokens)) :=
  ⟨by decide, estimateTokenCount_amended "hi" (by decide) initialWebviewState ⟨"hi", 3, none⟩ 0⟩

/-! ## C6: totalTokens monotonicity -/

/-- C6 counterexample: a completed turn brings `totalTokens` to 100, then an
`updateMetrics` extension message carrying `tokens = 5` ASSIGNS 5 to
`totalTokens` (webview.js line 745), so a later observed value is smaller
than an earlier one. -/
theorem totalTokens_counterexample :
    (runTurns initialWebviewState [{ prompt := "a", tokens := 100, model := none }]).totalTokens
      = 100 ∧
    (updateMetricsMsg
        (runTurns initialWebviewState [{ prompt := "a", tokens := 100, model := none }])
        (some 5) none).totalTokens = 5 ∧
    ¬ ((100 : Int) ≤ 5) := by
  decide

theorem runTurns_totalTokens_le (s : WebviewState) (ds : List AIRespData)
    (h : ∀ d ∈ ds, 0 ≤ d.tokens) :
    s.totalTokens ≤ (runTurns s ds).totalTokens := by
  induction ds generalizing s with
  | nil => exact le_rfl
  | cons d ds ih =>
    have h0 : 0 ≤ d.tokens := h d (List.mem_cons_self d ds)
    have hstep : s.totalTokens ≤ (handleAIResponse s d 0).totalTokens := by
      rw [handleAIResponse_totalTokens]
      split_ifs with hz
      · simp
      · linarith
    have hrest := ih (handleAIResponse s d 0) (fun x hx => h x (List.mem_cons_of_mem d hx))
    exact le_trans hstep hrest

/-- C6 amended: `totalTokens` is monotonically non-decreasing across any
sequence of completed turns with non-negative token counts; the
`updateMetrics` extension message, however, overwrites `totalTokens` with
the value it carries (rather than accumulating), so it can decrease it. -/
theorem totalTokens_amended (s : WebviewState) (ds : List AIRespData) (t : Int)
    (m : Option String) (h : ds.all (fun d => decide (0 ≤ d.tokens)) = true) (ht : t ≠ 0) :
    s.totalTokens ≤ (runTurns s ds).totalTokens ∧
    (updateMetricsMsg s (some t) m).totalTokens = t := by
  constructor
  · apply runTurns_totalTokens_le
    intro d hd
    exact of_decide_eq_true (List.all_eq_true.mp h d hd)
  · have hnum : numTruthy (some t) = true := by simp [numTruthy, ht]
    unfold updateMetricsMsg
    simp only [hnum, if_true]
    split_ifs <;> simp

/-- Witness for `totalTokens_amended`: one completed turn of 4 tokens, then
an `updateMetrics` message carrying 7. -/
theorem totalTokens_amended_witness :
    (([({ prompt := "a", tokens := 4, model := none } : AIRespData)].all
        (fun d => decide (0 ≤ d.tokens)) = true) ∧ ((7 : Int) ≠ 0)) ∧
    (initialWebviewState.totalTokens ≤
        (runTurns initialWebviewState
          [{ prompt := "a", tokens := 4, model := none }]).totalTokens ∧
      (updateMetricsMsg initialWebviewState (some 7) none).totalTokens = 7) :=
  ⟨⟨by decide, by decide⟩,
    totalTokens_amended initialWebviewState [{ prompt := "a", tokens := 4, model := none }]
      7 none (by decide) (by decide)⟩

/-! ## C2: single outstanding turn -/

/-- A webview state with a response pending: a turn was started at clock
value 100 and no response has arrived yet. -/
def pendingState : WebviewState :=
  { totalTokens := 0
    isGitLearningMode := false
    startTime := 100
    isWaitingForResponse := true
    modelNameText := "Mistral-7B-Instruct"
    responseTimeMs := none }

/-- C2 counterexample: with a response already pending, `startProject` with
valid inputs is NOT rejected: it issues the HTTP request and overwrites the
pending turn recorded start time (100) with the new clock value (200). -/
theorem startProject_pending_counterexample :
    pendingState.isWaitingForResponse = true ∧
    pendingState.startTime = 100 ∧
    (startProject pendingState "g" "p" "q" 200).2.2 ≠ none ∧
    (startProject pendingState "g" "p" "q" 200).1.startTime = 200 := by
  decide

/-- C2 amended: `sendChatMessage` rejects a new chat turn while a response
is pending, leaving the whole state untouched and sending nothing; but
`startProject` performs no pending check: with valid inputs in project
working mode it proceeds, issues the request, and overwrites the pending
turn start time and waiting flag. -/
theorem awaiting_response_amended (s : WebviewState) (input : String) (now : Int)
    (wsOpen : Bool) (g p q : String) (n2 : Int)
    (hw : s.isWaitingForResponse = true) (hm : s.isGitLearningMode = false)
    (hg : jsTrim g ≠ "") (hp : jsTrim p ≠ "") (hq : jsTrim q ≠ "") :
    sendChatMessage s input now wsOpen = (s, none, false, none) ∧
    (startProject s g p q n2).2.2 =
      some { goal := jsTrim g, project := jsTrim p, codebase_path := jsTrim q } ∧
    (startProject s g p q n2).1 =
      { s with startTime := n2, isWaitingForResponse := true } := by
  refine ⟨?_, ?_, ?_⟩
  · unfold sendChatMessage
    rw [if_pos (Or.inr hw)]
  · simp [startProject, hm, hg, hp, hq]
  · simp [startProject, hm, hg, hp, hq]

/-- Witness for `awaiting_response_amended` at `pendingState`. -/
theorem awaiting_response_amended_witness :
    (pendingState.isWaitingForResponse = true ∧ pendingState.isGitLearningMode = false ∧
      jsTrim "g" ≠ "" ∧ jsTrim "p" ≠ "" ∧ jsTrim "q" ≠ "") ∧
    (sendChatMessage pendingState "hello" 7 true = (pendingState, none, false, none) ∧
      (startProject pendingState "g" "p" "q" 200).2.2 =
        some { goal := jsTrim "g", project := jsTrim "p", codebase_path := jsTrim "q" } ∧
      (startProject pendingState "g" "p" "q" 200).1 =
        { pendingState with startTime := 200, isWaitingForResponse := true }) :=
  ⟨by decide,
    awaiting_response_amended pendingState "hello" 7 true "g" "p" "q" 200
      (by decide) (by decide) (by decide) (by decide) (by decide)⟩

/-! ## C9: startProject validation -/

/-- C9: `startProject` performs no network call and leaves the mutable
session state unchanged when in GitHub learning mode or when any input is
empty after trimming; in each such case an error is reported synchronously,
before any request would be issued. -/
theorem startProject_validation (s : WebviewState) (g p q : String) (now : Int)
    (h : s.isGitLearningMode = true ∨ jsTrim g = "" ∨ jsTrim p = "" ∨ jsTrim q = "") :
    (startProject s g p q now).1 = s ∧
    (startProject s g p q now).2.2 = none ∧
    (startProject s g p q now).2.1.isSome = true := by
  unfold startProject
  rcases h with h | h | h | h
  · simp [h]
  · by_cases hm : s.isGitLearningMode <;> simp [hm, h]
  · by_cases hm : s.isGitLearningMode <;> by_cases hg : jsTrim g = "" <;> simp [hm, hg, h]
  · by_cases hm : s.isGitLearningMode <;> by_cases hg : jsTrim g = "" <;>
      by_cases hp : jsTrim p = "" <;> simp [hm, hg, hp, h]

/-- Witness for `startProject_validation`: a goal input that is whitespace
only (empty after trimming). -/
theorem startProject_validation_witness :
    (initialWebviewState.isGitLearningMode = true ∨ jsTrim "   " = "" ∨
      jsTrim "p" = "" ∨ jsTrim "q" = "") ∧
    ((startProject initialWebviewState "   " "p" "q" 5).1 = initialWebviewState ∧
      (startProject initialWebviewState "   " "p" "q" 5).2.2 = none ∧
      (startProject initialWebviewState "   " "p" "q" 5).2.1.isSome = true) :=
  ⟨Or.inr (Or.inl (by decide)),
    startProject_validation initialWebviewState "   " "p" "q" 5 (Or.inr (Or.inl (by decide)))⟩

/-! ## C3: classification precedence -/

/-- C3 counterexample: a frame carrying BOTH an error field and a prompt
field (with a model name and an explicit token count) is classified as an
AssistantResponse, not as an ErrorNotice: the source checks `data.prompt`
before `data.error`. -/
theorem classify_error_prompt_counterexample :
    classifyFrame
        { prompt := some "hi", message := none, learning_progress := none,
          error := some "boom", tokens := some 7, model := some "m" } "rawframe" =
      Envelope.assistantResponse "hi" 7 "m" ∧
    Envelope.isErrorNotice
      (classifyFrame
        { prompt := some "hi", message := none, learning_progress := none,
          error := some "boom", tokens := some 7, model := some "m" } "rawframe") = false := by
  decide

/-- C3 amended: the classification precedence of the source is `prompt`,
then `message`, then `learning_progress`, then `error`; a structurally
valid but unrecognized frame is handled as a plain-text AssistantResponse
with a fixed count of 10 tokens (not ignored); additionally, a prompt or
message frame without a truthy model field is diverted by the unbound
`currentModel` reference into the caught-exception plain-text fallback.
Classification is total (never crashes). -/
theorem classify_precedence_amended (d : InFrame) (raw : String) :
    (strTruthy d.prompt = true → strTruthy d.model = true →
      classifyFrame d raw = Envelope.assistantResponse (d.prompt.getD "")
        (respTokens d.tokens (d.prompt.getD "")) (d.model.getD "")) ∧
    (strTruthy d.prompt = true → strTruthy d.model = false →
      classifyFrame d raw = Envelope.fallbackResponse raw (estimateTokenCount raw)) ∧
    (strTruthy d.prompt = false → strTruthy d.message = true → strTruthy d.model = true →
      classifyFrame d raw = Envelope.assistantResponse (d.message.getD "")
        (respTokens d.tokens (d.message.getD "")) (d.model.getD "")) ∧
    (strTruthy d.prompt = false → strTruthy d.message = false →
      progTruthy d.learning_progress = true →
      classifyFrame d raw =
        Envelope.progressUpdate (d.learning_progress.getD (ProgressPayload.num 0))) ∧
    (strTruthy d.prompt = false → strTruthy d.message = false →
      progTruthy d.learning_progress = false → strTruthy d.error = true →
      classifyFrame d raw = Envelope.errorNotice (d.error.getD "")) ∧
    (strTruthy d.prompt = false → strTruthy d.message = false →
      progTruthy d.learning_progress = false → strTruthy d.error = false →
      classifyFrame d raw = Envelope.fallbackResponse raw 10) := by
  refine ⟨?_, ?_, ?_, ?_, ?_, ?_⟩ <;> (intros; simp [classifyFrame, *])

/-- Witness for `classify_precedence_amended`: an error-only frame reaches
the ErrorNotice branch. -/
theorem classify_precedence_amended_witness :
    (strTruthy (none : Option String) = false ∧
      progTruthy (none : Option ProgressPayload) = false ∧
      strTruthy (some "rate limited") = true) ∧
    classifyFrame
        { prompt := none, message := none, learning_progress := none,
          error := some "rate limited", tokens := none, model := none } "raw" =
      Envelope.errorNotice "rate limited" :=
  ⟨⟨rfl, rfl, by decide⟩,
    (classify_precedence_amended
        { prompt := none, message := none, learning_progress := none,
          error := some "rate limited", tokens := none, model := none } "raw").2.2.2.2.1
      rfl rfl rfl (by decide)⟩

/-! ## C8: learning progress frames -/

def pct42Frame : ProgressPayload :=
  ProgressPayload.obj
    { percentage := some 42, repos_analyzed := none, files_processed := none,
      lines_processed := none, current_repo := none, status_message := none }

/-- C8: a learning_progress frame received while in project working mode
changes nothing; the same frame in GitHub learning mode updates exactly the
fields it carries ({percentage: 42} sets the bar to 42 and the status line)
and leaves every field it does not carry unchanged. -/
theorem learning_progress_spec (d : LearningDisplay) (o : ProgressObj) :
    onLearningProgressFrame false d (ProgressPayload.obj o) = d ∧
    (onLearningProgressFrame true d pct42Frame).progressBarWidth = some 42 ∧
    (onLearningProgressFrame true d pct42Frame).statusText = progressStatusLine 42 ∧
    (onLearningProgressFrame true d pct42Frame).reposAnalyzed = d.reposAnalyzed ∧
    (onLearningProgressFrame true d pct42Frame).filesProcessed = d.filesProcessed ∧
    (onLearningProgressFrame true d pct42Frame).linesProcessed = d.linesProcessed ∧
    (onLearningProgressFrame true d pct42Frame).currentRepo = d.currentRepo ∧
    (o.percentage = none →
      (onLearningProgressFrame true d (ProgressPayload.obj o)).progressBarWidth =
        d.progressBarWidth) ∧
    (o.repos_analyzed = none →
      (onLearningProgressFrame true d (ProgressPayload.obj o)).reposAnalyzed =
        d.reposAnalyzed) ∧
    (o.files_processed = none →
      (onLearningProgressFrame true d (ProgressPayload.obj o)).filesProcessed =
        d.filesProcessed) ∧
    (o.lines_processed = none →
      (onLearningProgressFrame true d (ProgressPayload.obj o)).linesProcessed =
        d.linesProcessed) ∧
    (o.current_repo = none →
      (onLearningProgressFrame true d (ProgressPayload.obj o)).currentRepo =
        d.currentRepo) := by
  rcases o with ⟨pc, ra, fp, lp, cr, sm⟩
  cases pc <;> cases ra <;> cases fp <;> cases lp <;> cases cr <;> cases sm <;>
    simp [onLearningProgressFrame, updateLearningProgress, pct42Frame] <;>
      split_ifs <;> simp_all

/-- Witness for `learning_progress_spec`: a frame carrying only
repos_analyzed leaves the progress bar untouched. -/
theorem learning_progress_spec_witness :
    ((⟨none, some 3, none, none, none, none⟩ : ProgressObj).percentage = none) ∧
    (onLearningProgressFrame true
        ⟨none, "idle", none, none, none, none⟩
        (ProgressPayload.obj ⟨none, some 3, none, none, none, none⟩)).progressBarWidth =
      (⟨none, "idle", none, none, none, none⟩ : LearningDisplay).progressBarWidth :=
  ⟨rfl,
    (learning_progress_spec ⟨none, "idle", none, none, none, none⟩
        ⟨none, some 3, none, none, none, none⟩).2.2.2.2.2.2.2.1 rfl⟩

/-! ## C7: WebSocketClient.sendMessage -/

/-- C7: `sendMessage` returns true and writes the serialized message to the
socket exactly when the client is connected, a socket exists, the socket is
OPEN and no exception occurs; in every other case it returns false and
writes nothing (and it never queues: the model has no queue). -/
theorem sendMessage_spec (c : WSClientState) (sendFails : Bool) :
    ((sendMessage c sendFails).1 = true ↔
      (c.isConnected = true ∧ c.hasWs = true ∧ c.readyState = ReadyState.OPEN ∧
        sendFails = false)) ∧
    ((sendMessage c sendFails).2 = (sendMessage c sendFails).1) ∧
    ((sendMessage c sendFails).1 = false → (sendMessage c sendFails).2 = false) := by
  rcases c with ⟨hw, ic, rs⟩
  cases hw <;> cases ic <;> cases sendFails <;> cases rs <;> simp [sendMessage]

/-- Witness for `sendMessage_spec`: a socket object exists and is OPEN but
`isConnected` is false, so nothing is sent and false is returned. -/
theorem sendMessage_spec_witness :
    ((sendMessage ⟨true, false, ReadyState.OPEN⟩ false).1 = false) ∧
    ((sendMessage ⟨true, false, ReadyState.OPEN⟩ false).2 = false) :=
  ⟨by decide, (sendMessage_spec ⟨true, false, ReadyState.OPEN⟩ false).2.2 (by decide)⟩

/-! ## C10: ExtensionState two-tier store -/

theorem mapReplace_keys (t : List (String × JSValue)) (k : String) (v : JSValue) :
    (t.map (fun p => if p.1 == k then (p.1, v) else p)).map Prod.fst = t.map Prod.fst := by
  induction t with
  | nil => rfl
  | cons hd tl ih =>
    simp only [List.map_cons, ih]
    by_cases h : hd.1 == k <;> simp [h]

/-- C10 counterexample: "toString" is not an own key of the session tier,
but the JS `in` test also matches the inherited Object.prototype.toString,
so `updateSession("toString", ...)` passes the guard at state.js line 66,
appends a NEW own key to the session tier, and notifies the registered
listener -- while the claim says such a call must leave the entire state
unchanged, notify nobody, and never write a key that does not already
exist in the tier. -/
theorem updateSession_toString_counterexample :
    hasOwn storeWithListener.session "toString" = false ∧
    (updateSession storeWithListener "toString" (JSValue.str "boom")).1.session.entries =
      storeWithListener.session.entries ++ [("toString", JSValue.str "boom")] ∧
    (updateSession storeWithListener "toString" (JSValue.str "boom")).1 ≠ storeWithListener ∧
    (updateSession storeWithListener "toString" (JSValue.str "boom")).2.length = 1 := by
  decide

/-- C10 amended: updating with a key that is neither an own key of the
tier nor an Object.prototype property leaves the entire state unchanged
and notifies no listener. A key that passes the JS `in` test is written
and every such write synchronously notifies all registered listeners with
the merged snapshot; an existing own key is overwritten in place (adding
no key), while a key matched only through the prototype chain is created
as a new own key appended to the tier -- except __proto__, whose inherited
accessor intercepts the assignment (null detaches the prototype, the other
primitive values change nothing, though listeners are still notified). -/
theorem extensionState_update_amended (s : ExtensionState) (o : JSObject)
    (k : String) (v : JSValue) :
    (hasKeyJS s.persistent k = false → updatePersistent s k v = (s, [])) ∧
    (hasKeyJS s.session k = false → updateSession s k v = (s, [])) ∧
    (hasKeyJS s.persistent k = true →
      (updatePersistent s k v).1.persistent = assign s.persistent k v ∧
      (updatePersistent s k v).1.session = s.session ∧
      (updatePersistent s k v).2 =
        List.replicate s.listeners (getState (updatePersistent s k v).1)) ∧
    (hasKeyJS s.session k = true →
      (updateSession s k v).1.session = assign s.session k v ∧
      (updateSession s k v).1.persistent = s.persistent ∧
      (updateSession s k v).2 =
        List.replicate s.listeners (getState (updateSession s k v).1)) ∧
    (hasOwn o k = true →
      (assign o k v).entries.map Prod.fst = o.entries.map Prod.fst) ∧
    (hasOwn o k = false → hasKeyJS o k = true → k ≠ "__proto__" →
      (assign o k v).entries = o.entries ++ [(k, v)]) ∧
    (hasOwn o "__proto__" = false → o.protoIsObjectPrototype = true →
      (assign o "__proto__" JSValue.null).entries = o.entries ∧
      (assign o "__proto__" JSValue.null).protoIsObjectPrototype = false) := by
  refine ⟨?_, ?_, ?_, ?_, ?_, ?_, ?_⟩
  · intro h
    simp [updatePersistent, h]
  · intro h
    simp [updateSession, h]
  · intro h
    exact ⟨by simp [updatePersistent, h], by simp [updatePersistent, h],
      by simp [updatePersistent, h, notifySnapshots]⟩
  · intro h
    exact ⟨by simp [updateSession, h], by simp [updateSession, h],
      by simp [updateSession, h, notifySnapshots]⟩
  · intro h
    unfold assign
    rw [if_pos h]
    exact mapReplace_keys o.entries k v
  · intro h1 h2 h3
    simp [assign, h1, h3]
  · intro h1 h2
    simp [assign, h1, h2]

/-- Witness for `extensionState_update_amended`: "bogus" is neither an own
key nor an Object.prototype property, so the write is a silent no-op. -/
theorem extensionState_update_amended_witness :
    (hasKeyJS initialExtensionState.persistent "bogus" = false) ∧
    updatePersistent initialExtensionState "bogus" (JSValue.num 1) =
      (initialExtensionState, []) :=
  ⟨by decide,
    (extensionState_update_amended initialExtensionState initialExtensionState.persistent
        "bogus" (JSValue.num 1)).1 (by decide)⟩

end AICA
